import Mathlib

/-!
Verification development for `youtube_frames_to_png.py`.

Shallow embedding conventions:
* Python `float` values are modelled as exact rationals (`ℚ`); the claims
  under study only involve arithmetic that is exact in IEEE doubles.
* Python exceptions are modelled with `Option`/`Except`: `none`/`error`
  means the Python code raised at that point.
* Python strings are Lean `String`s; the handful of `str` methods the
  source uses (`strip`, `split`, `startswith`) are re-implemented on the
  underlying character lists, restricted to ASCII whitespace and plain
  decimal literals, which is all the ffmpeg/ffprobe data formats produce.
-/

namespace YF

/-- Models Python `str.strip()` on the character list (ASCII whitespace). -/
def stripChars (cs : List Char) : List Char :=
  ((cs.dropWhile Char.isWhitespace).reverse.dropWhile Char.isWhitespace).reverse

/-- Python `s.strip()`. -/
def pyStrip (s : String) : String := ⟨stripChars s.data⟩

/-- Models Python `str.split(sep)` for a one-character separator. -/
def splitOnChar (sep : Char) : List Char → List (List Char)
  | [] => [[]]
  | c :: cs =>
    match splitOnChar sep cs with
    | [] => [[c]]
    | h :: t => if c = sep then [] :: h :: t else (c :: h) :: t

/-- Characters after the first `=`, i.e. Python `s.split("=", 1)[1]`
(the source only calls this on lines already known to contain `=`). -/
def dropThroughEq : List Char → List Char
  | [] => []
  | c :: cs => if c = '=' then cs else dropThroughEq cs

/-- Python `line.split("=", 1)[1]`. -/
def afterFirstEq (s : String) : String := ⟨dropThroughEq s.data⟩

/-- Models Python `str.startswith` on character lists. -/
def startsWithChars : List Char → List Char → Bool
  | [], _ => true
  | _ :: _, [] => false
  | p :: ps, c :: cs => p == c && startsWithChars ps cs

/-- Python `s.startswith(p)`. -/
def pyStartsWith (p s : String) : Bool := startsWithChars p.data s.data

/-- Value of a decimal digit character (0 on non-digits, which every use
guards against). -/
def digitVal (c : Char) : ℕ :=
  if c = '1' then 1 else if c = '2' then 2 else if c = '3' then 3
  else if c = '4' then 4 else if c = '5' then 5 else if c = '6' then 6
  else if c = '7' then 7 else if c = '8' then 8 else if c = '9' then 9 else 0

/-- Value of a list of decimal digit characters. -/
def digitsToNat (cs : List Char) : ℕ := cs.foldl (fun a c => a * 10 + digitVal c) 0

/-- Models Python `int(str)`: optional surrounding whitespace, optional
sign, then decimal digits. (Digit-group underscores and non-decimal bases
are not modelled; ffmpeg progress lines never use them.) `none` is the
`ValueError` Python raises on anything else. -/
def pyInt (s : String) : Option ℤ :=
  let cs := stripChars s.data
  match cs with
  | '-' :: body => if body ≠ [] ∧ body.all Char.isDigit then some (-(digitsToNat body : ℤ)) else none
  | '+' :: body => if body ≠ [] ∧ body.all Char.isDigit then some (digitsToNat body : ℤ) else none
  | body => if body ≠ [] ∧ body.all Char.isDigit then some (digitsToNat body : ℤ) else none

/-- Helper for `pyFloat`: unsigned decimal literal `digits[.digits]`
(at least one digit overall) to an exact rational. -/
def pyFloatBody (cs : List Char) : Option ℚ :=
  match splitOnChar '.' cs with
  | [ip] =>
    if ip ≠ [] ∧ ip.all Char.isDigit then some (digitsToNat ip : ℚ) else none
  | [ip, fp] =>
    if (ip ≠ [] ∨ fp ≠ []) ∧ ip.all Char.isDigit ∧ fp.all Char.isDigit then
      some ((digitsToNat ip : ℚ) + (digitsToNat fp : ℚ) / (10 : ℚ) ^ fp.length)
    else none
  | _ => none

/-- Models Python `float(str)` on plain decimal literals: optional
surrounding whitespace, optional sign, digits with an optional fractional
part. (Exponents, `inf`/`nan` and underscores are not modelled; timecode
fields and ffprobe output only use plain decimals.) `none` is Python's
`ValueError`. -/
def pyFloat (s : String) : Option ℚ :=
  match stripChars s.data with
  | '-' :: body => (pyFloatBody body).map (fun q => -q)
  | '+' :: body => pyFloatBody body
  | body => pyFloatBody body

/-- Python `int(x)` on a float value: truncation toward zero. -/
def truncQ (q : ℚ) : ℤ := q.num.tdiv q.den

/-- Floor of a rational as the code's `int()` would compute it on
non-negative inputs; used to state the estimator's specification. -/
def floorQ (q : ℚ) : ℤ := q.num.fdiv q.den

/-- The list comprehension `[float(p) for p in parts]`: parse each field
left to right, raising (`none`) at the first field `float()` rejects. -/
def parseFields : List (List Char) → Option (List ℚ)
  | [] => some []
  | f :: fs => do
    let q ← pyFloat ⟨f⟩
    let qs ← parseFields fs
    pure (q :: qs)

/-- Embedding of `to_sec` (source lines 46-54): split on `:`, parse every
field as a float, left-pad with zeros to three fields, combine as
H*3600 + M*60 + S. `none` models the `ValueError` raised on a field that
`float()` rejects. -/
def to_sec (ts : String) : Option ℚ :=
  if ts = "" then some 0
  else do
    let parts ← parseFields (splitOnChar ':' ts.data)
    let padded := List.replicate (3 - parts.length) 0 ++ parts
    pure (padded.getD 0 0 * 3600 + padded.getD 1 0 * 60 + padded.getD 2 0)

/-- The structured fields `probe_video_info` reads from ffprobe's JSON:
`data["format"]["duration"]` and `data["streams"][0]["r_frame_rate"]`,
each possibly absent. -/
structure ProbeOutput where
  duration : Option String
  r_frame_rate : Option String
deriving DecidableEq

/-- Embedding of the `fps` computation of `probe_video_info` (source lines
124-128): `num, den = fps_str.split("/")`, `float(num)/float(den)` with a
zero denominator giving `0.0`; the enclosing `try/except` turns every
failure (wrong number of `/`-fields, unparsable field) into `0.0`. -/
def parseFps (fps_str : String) : ℚ :=
  match splitOnChar '/' fps_str.data with
  | [num, den] =>
    match pyFloat ⟨num⟩, pyFloat ⟨den⟩ with
    | some n, some d => if d ≠ 0 then n / d else 0
    | _, _ => 0
  | _ => 0

/-- Embedding of `probe_video_info` (source lines 109-129) applied to
already-decoded JSON fields: the duration defaults to `0.0` when absent
but `float()` of an unparsable duration string raises (that call is not
inside the `try`), while the frame-rate parse never raises. -/
def probe_video_info (o : ProbeOutput) : Option (ℚ × ℚ) :=
  match (match o.duration with
         | none => some (0 : ℚ)
         | some s => pyFloat s) with
  | none => none
  | some dur => some (dur, parseFps (o.r_frame_rate.getD "0/0"))

/-- One probe run including the external invocation: `none` input models
`subprocess.check_output` failing or `json.loads` rejecting the output
(the exceptions the spec groups as `ProbeFailed`). -/
def runProbe (op : Option ProbeOutput) : Option (ℚ × ℚ) :=
  op.bind probe_video_info

/-- Python truthiness of an `Optional[str]`: `None` and `""` are falsy. -/
def optTruthy : Option String → Bool
  | none => false
  | some s => s ≠ ""

/-- Embedding of the frame-budget computation of `ffmpeg_extract_frames`
(source lines 141-148) on already-parsed numbers: `effective_duration`
and `est_frames`, with `int()` truncation and the `max(1, every_n)`
divisor guard. `end_s = none` means no end timecode was given. -/
def frameBudget (dur fps : ℚ) (every_n : ℤ) (start_s : ℚ) (end_s : Option ℚ) : ℤ :=
  let effective_duration : ℚ :=
    max 0 (match end_s with
           | some e => e - start_s
           | none => if 0 < dur then dur - start_s else 0)
  if 0 < fps ∧ 0 < effective_duration then
    truncQ (effective_duration * fps / ((max 1 every_n : ℤ) : ℚ))
  else 0

/-- The Frame Budget Estimator exactly as the specification words it:
`effective_duration = max(0, end - start)` when an explicit end was given,
else `max(0, duration - start)` when the duration is known, else 0; budget
is `floor(effective_duration * frame_rate / N)` when both the frame rate
and the effective duration are positive, else 0. -/
def frameBudgetSpec (dur fps : ℚ) (every_n : ℤ) (start_s : ℚ) (end_s : Option ℚ) : ℤ :=
  let effective_duration : ℚ :=
    match end_s with
    | some e => max 0 (e - start_s)
    | none => if 0 < dur then max 0 (dur - start_s) else 0
  if 0 < fps ∧ 0 < effective_duration then
    floorQ (effective_duration * fps / (every_n : ℚ))
  else 0

/-- Estimation prelude of `ffmpeg_extract_frames` (source lines 140-148)
starting from the probe: the bare `probe_video_info` call whose exception
propagates, the `to_sec` conversions of the optional timecodes (whose
exceptions also propagate), then the budget. `none` means the run aborted
before the external process was launched. -/
def extractEstimate (probe : Option ProbeOutput) (every_n : ℤ)
    (start_ts end_ts : Option String) : Option ℤ := do
  let (dur, fps) ← runProbe probe
  let start_s ← if optTruthy start_ts then to_sec (start_ts.getD "") else some 0
  let endOpt ← if optTruthy end_ts then (to_sec (end_ts.getD "")).map some else some none
  pure (frameBudget dur fps every_n start_s endOpt)

/-- State of the progress loop of `ffmpeg_extract_frames`: the tqdm bar's
accumulated count `n` (sum of all `update` increments, starting at 0) and
the two cursors `last_frames_counted` and `last_out_time` (source lines
175-176). -/
structure ProgressState where
  n : ℤ
  last_frames_counted : ℤ
  last_out_time : ℚ
deriving DecidableEq

/-- Initial loop state: `pbar.n = 0`, `last_frames_counted = 0`,
`last_out_time = 0.0`. -/
def initState : ProgressState := ⟨0, 0, 0⟩

/-- Embedding of one iteration of the progress loop of
`ffmpeg_extract_frames` (source lines 179-206): strip the line; on a
`frame=` line parse the payload as `int` and, only when the budget is
unknown (`est_frames == 0`), advance by the positive difference and move
the frame cursor; on an `out_time_ms=` line, only when the budget is
known, convert to seconds, estimate frames from the elapsed delta times
`fps / max(1, every_n)`, and advance by the truncated estimate when it is
positive, moving the time cursor. A payload `int()` rejects is swallowed
by the `try/except: pass`, leaving the state unchanged. -/
def processLine (est_frames : ℤ) (fps : ℚ) (every_n : ℤ)
    (st : ProgressState) (rawLine : String) : ProgressState :=
  let line := pyStrip rawLine
  if pyStartsWith "frame=" line then
    match pyInt (afterFirstEq line) with
    | some cur =>
      if est_frames = 0 then
        let inc := cur - st.last_frames_counted
        if 0 < inc then ⟨st.n + inc, cur, st.last_out_time⟩ else st
      else st
    | none => st
  else if pyStartsWith "out_time_ms=" line ∧ 0 < est_frames then
    match pyInt (afterFirstEq line) with
    | some ms =>
      let seconds : ℚ := (ms : ℚ) / 1000000
      let est_now : ℤ := truncQ ((seconds - st.last_out_time) * (fps / ((max 1 every_n : ℤ) : ℚ)))
      if 0 < est_now then ⟨st.n + est_now, st.last_frames_counted, seconds⟩ else st
    | none => st
  else st

/-- The whole read loop: fold `processLine` over the stream's lines. -/
def runLines (est_frames : ℤ) (fps : ℚ) (every_n : ℤ)
    (lines : List String) (st : ProgressState) : ProgressState :=
  lines.foldl (processLine est_frames fps every_n) st

/-- Embedding of the `finally` block's reconciliation (source lines
209-211): when the budget is known and the bar fell short, one final
`update(est_frames - pbar.n)` tops it up to exactly the budget; then the
bar is closed (closing does not change the count). -/
def finalizeProgress (est_frames : ℤ) (st : ProgressState) : ProgressState :=
  if 0 < est_frames ∧ st.n < est_frames then
    ⟨st.n + (est_frames - st.n), st.last_frames_counted, st.last_out_time⟩
  else st

/-- Full progress pipeline for one extraction: consume the stream, then
reconcile and close. -/
def ffmpegProgress (est_frames : ℤ) (fps : ℚ) (every_n : ℤ)
    (lines : List String) : ProgressState :=
  finalizeProgress est_frames (runLines est_frames fps every_n lines initState)

/-- Embedding of the exit-status check of `ffmpeg_extract_frames` (source
lines 214-215) together with the frames already written to disk: a
non-zero return code raises `CalledProcessError` (the spec's
`ExtractionFailed`), a zero return code returns normally; neither path
touches the files already on disk. -/
def extractionResult (returncode : ℤ) (framesOnDisk : ℕ) : Except ℤ Unit × ℕ :=
  (if returncode ≠ 0 then Except.error returncode else Except.ok (), framesOnDisk)

lemma truncQ_eq_floorQ (q : ℚ) (hq : 0 ≤ q) : truncQ q = floorQ q := by
  unfold truncQ floorQ
  exact (Int.fdiv_eq_tdiv (Rat.num_nonneg.mpr hq) (Int.ofNat_nonneg q.den)).symm

/-- C4: the frame-budget computation of `ffmpeg_extract_frames` agrees
with the spec's Frame Budget Estimator whenever the decimation factor is
at least 1: effective duration is `max(0, end - start)` with an explicit
end, else `max(0, duration - start)` for a known duration, else 0, and the
budget is `floor(effective_duration * fps / N)` when fps and effective
duration are positive, else 0. Concrete cases: duration 120 at 30 fps,
N = 1 gives 3600; N = 3 gives 1200; fps = 0 gives 0 whatever the
duration; start 10, end 20, 25 fps, N = 1 gives 250. -/
theorem frame_budget_estimator :
    (∀ (dur fps : ℚ) (n : ℤ) (s : ℚ) (e : Option ℚ), 1 ≤ n →
      frameBudget dur fps n s e = frameBudgetSpec dur fps n s e) ∧
    frameBudget 120 30 1 0 none = 3600 ∧
    frameBudget 120 30 3 0 none = 1200 ∧
    (∀ (dur : ℚ) (n : ℤ) (s : ℚ) (e : Option ℚ), frameBudget dur 0 n s e = 0) ∧
    frameBudget 120 25 1 10 (some 20) = 250 := by
  refine ⟨?_, ?_, ?_, ?_, ?_⟩
  · intro dur fps n s e hn
    have hmax : (max 1 n : ℤ) = n := max_eq_right hn
    have hn0 : (0 : ℚ) < (n : ℚ) := by exact_mod_cast lt_of_lt_of_le one_pos hn
    cases e with
    | some e' =>
      simp only [frameBudget, frameBudgetSpec, hmax]
      by_cases hc : 0 < fps ∧ 0 < max 0 (e' - s)
      · rw [if_pos hc, if_pos hc]
        exact truncQ_eq_floorQ _ (div_nonneg (mul_nonneg (le_max_left _ _) hc.1.le) hn0.le)
      · rw [if_neg hc, if_neg hc]
    | none =>
      by_cases hd : 0 < dur
      · simp only [frameBudget, frameBudgetSpec, hmax, hd, if_true]
        by_cases hc : 0 < fps ∧ 0 < max 0 (dur - s)
        · rw [if_pos hc, if_pos hc]
          exact truncQ_eq_floorQ _ (div_nonneg (mul_nonneg (le_max_left _ _) hc.1.le) hn0.le)
        · rw [if_neg hc, if_neg hc]
      · simp [frameBudget, frameBudgetSpec, hd]
  · norm_num [frameBudget, truncQ]
  · norm_num [frameBudget, truncQ]
  · intro dur n s e
    simp [frameBudget]
  · norm_num [frameBudget, truncQ]

/-- Witness for `frame_budget_estimator` at the spec's end-to-end example
(duration 10, 24 fps, N = 4). -/
theorem frame_budget_estimator_witness :
    frameBudget 10 24 4 0 none = frameBudgetSpec 10 24 4 0 none :=
  frame_budget_estimator.1 10 24 4 0 none (by decide)

/-- C3: on stream end, if the budget was known (positive) and the bar fell
short, one reconciling advance of exactly `budget - total` brings the
total to the budget; if the total already reached the budget nothing is
added; with an unknown budget (0) the bar is closed at whatever count it
reached, with no reconciling advance. -/
theorem finalize_reconciliation :
    ∀ (est : ℤ) (st : ProgressState),
      (0 < est → st.n < est →
        finalizeProgress est st = ⟨est, st.last_frames_counted, st.last_out_time⟩) ∧
      (0 < est → est ≤ st.n → finalizeProgress est st = st) ∧
      finalizeProgress 0 st = st := by
  intro est st
  refine ⟨fun h1 h2 => ?_, fun h1 h2 => ?_, ?_⟩
  · simp only [finalizeProgress, if_pos (And.intro h1 h2)]
    congr 1
    ring
  · rw [finalizeProgress, if_neg]
    rintro ⟨-, hlt⟩
    exact absurd h2 (not_le.mpr hlt)
  · rw [finalizeProgress, if_neg]
    rintro ⟨h, -⟩
    exact lt_irrefl 0 h

/-- Witness for `finalize_reconciliation`: accumulated 90 against budget
100 is topped up to exactly 100. -/
theorem finalize_reconciliation_witness :
    finalizeProgress 100 ⟨90, 0, 9⟩ = ⟨100, 0, 9⟩ :=
  (finalize_reconciliation 100 ⟨90, 0, 9⟩).1 (by decide) (by decide)

/-- C8: the extraction fails (raises `CalledProcessError`, the spec's
`ExtractionFailed`) exactly when the external process exits non-zero; a
zero exit succeeds even when the frames on disk differ from the estimate,
and in every case the frames already on disk are left untouched. -/
theorem extraction_exit_status :
    ∀ (rc : ℤ) (frames : ℕ),
      ((extractionResult rc frames).1 = Except.ok () ↔ rc = 0) ∧
      (rc ≠ 0 → (extractionResult rc frames).1 = Except.error rc) ∧
      (∀ est : ℕ, frames ≠ est → (extractionResult 0 frames).1 = Except.ok ()) ∧
      (extractionResult rc frames).2 = frames := by
  intro rc frames
  refine ⟨⟨fun h => ?_, fun h => ?_⟩, fun h => ?_, fun est _ => ?_, rfl⟩
  · by_contra hrc
    simp [extractionResult, hrc] at h
  · simp [extractionResult, h]
  · simp [extractionResult, h]
  · simp [extractionResult]

/-- Witness for `extraction_exit_status`: exit status 3 with 5 partial
frames raises carrying status 3, and the frames stay on disk. -/
theorem extraction_exit_status_witness :
    (extractionResult 3 5).1 = Except.error 3 ∧ (extractionResult 3 5).2 = 5 :=
  ⟨(extraction_exit_status 3 5).2.1 (by decide), (extraction_exit_status 3 5).2.2.2⟩

/-- C10: for a decimation factor `every_n ≤ 0` (outside the spec's N ≥ 1
precondition) both the frame budget and the time-based progress increments
are computed with divisor `max(1, every_n) = 1`, i.e. exactly as for
`every_n = 1`, so no division by zero can occur for any integer value. -/
theorem nonpositive_decimation (every_n : ℤ) (h : every_n ≤ 0) :
    (∀ (dur fps : ℚ) (s : ℚ) (e : Option ℚ),
      frameBudget dur fps every_n s e = frameBudget dur fps 1 s e) ∧
    (∀ (est : ℤ) (fps : ℚ) (st : ProgressState) (line : String),
      processLine est fps every_n st line = processLine est fps 1 st line) := by
  have hm : (max 1 every_n : ℤ) = max 1 1 := by omega
  constructor
  · intro dur fps s e
    simp only [frameBudget, hm]
  · intro est fps st line
    simp only [processLine, hm]

/-- Witness for `nonpositive_decimation` at `every_n = 0`: the budget for
duration 120 at 30 fps equals the `every_n = 1` budget. -/
theorem nonpositive_decimation_witness :
    frameBudget 120 30 0 0 none = frameBudget 120 30 1 0 none :=
  (nonpositive_decimation 0 (by decide)).1 120 30 0 none

lemma frame_not_out (line : String)
    (h : pyStartsWith "out_time_ms=" line = true) :
    pyStartsWith "frame=" line = false := by
  unfold pyStartsWith at h ⊢
  cases hd : line.data with
  | nil =>
    rw [hd] at h
    exact absurd h (by decide)
  | cons c cs =>
    rw [hd] at h
    rw [show "out_time_ms=".data = 'o' :: "ut_time_ms=".data from rfl] at h
    rw [show "frame=".data = 'f' :: "rame=".data from rfl]
    simp only [startsWithChars, Bool.and_eq_true, beq_iff_eq] at h
    obtain ⟨rfl, -⟩ := h
    simp [startsWithChars]

lemma frame_line_step (fps : ℚ) (every_n : ℤ) (st : ProgressState)
    (line : String) (v : ℤ)
    (htrim : pyStrip line = line)
    (hstart : pyStartsWith "frame=" line = true)
    (hv : pyInt (afterFirstEq line) = some v) :
    processLine 0 fps every_n st line =
      if st.last_frames_counted < v then
        ⟨st.n + (v - st.last_frames_counted), v, st.last_out_time⟩
      else st := by
  simp only [processLine, htrim, hstart, hv]
  simp [sub_pos]

lemma frame_line_malformed (est : ℤ) (fps : ℚ) (every_n : ℤ) (st : ProgressState)
    (line : String)
    (htrim : pyStrip line = line)
    (hstart : pyStartsWith "frame=" line = true)
    (hv : pyInt (afterFirstEq line) = none) :
    processLine est fps every_n st line = st := by
  simp only [processLine, htrim, hstart, hv]
  simp

lemma out_time_line_step (est : ℤ) (fps : ℚ) (every_n : ℤ) (st : ProgressState)
    (line : String) (v : ℤ)
    (hest : 0 < est)
    (htrim : pyStrip line = line)
    (hstart : pyStartsWith "out_time_ms=" line = true)
    (hv : pyInt (afterFirstEq line) = some v) :
    processLine est fps every_n st line =
      if 0 < truncQ (((v : ℚ) / 1000000 - st.last_out_time) * (fps / ((max 1 every_n : ℤ) : ℚ))) then
        ⟨st.n + truncQ (((v : ℚ) / 1000000 - st.last_out_time) * (fps / ((max 1 every_n : ℤ) : ℚ))),
         st.last_frames_counted, (v : ℚ) / 1000000⟩
      else st := by
  have hnf := frame_not_out line hstart
  simp only [processLine, htrim, hnf, hstart, hv]
  simp [hest]

/-- C1: with an unknown budget (0), a stripped `frame=` line whose payload
parses as an integer `v` advances the bar by exactly
`v - last_frames_counted` when that difference is positive and moves the
frame cursor to `v`; a stale (non-increasing) value or a payload `int()`
rejects changes nothing, and the loop keeps consuming lines. The stream
`frame=10`, `frame=25`, `frame=20` yields advances of 10 then 15, the
stale 20 adding nothing. -/
theorem frame_progress_unknown_budget :
    (∀ (fps : ℚ) (every_n : ℤ) (st : ProgressState) (line : String) (v : ℤ),
      pyStrip line = line → pyStartsWith "frame=" line = true →
      pyInt (afterFirstEq line) = some v →
      processLine 0 fps every_n st line =
        if st.last_frames_counted < v then
          ⟨st.n + (v - st.last_frames_counted), v, st.last_out_time⟩
        else st) ∧
    (∀ (est : ℤ) (fps : ℚ) (every_n : ℤ) (st : ProgressState) (line : String),
      pyStrip line = line → pyStartsWith "frame=" line = true →
      pyInt (afterFirstEq line) = none →
      processLine est fps every_n st line = st) ∧
    runLines 0 0 1 ["frame=10"] initState = ⟨10, 10, 0⟩ ∧
    runLines 0 0 1 ["frame=10", "frame=25"] initState = ⟨25, 25, 0⟩ ∧
    runLines 0 0 1 ["frame=10", "frame=25", "frame=20"] initState = ⟨25, 25, 0⟩ :=
  ⟨fun fps every_n st line v htrim hstart hv =>
      frame_line_step fps every_n st line v htrim hstart hv,
   fun est fps every_n st line htrim hstart hv =>
      frame_line_malformed est fps every_n st line htrim hstart hv,
   by decide, by decide, by decide⟩

/-- Witness for `frame_progress_unknown_budget`: from cursor 3, the line
`frame=9` advances the bar by 6 and moves the cursor to 9. -/
theorem frame_progress_unknown_budget_witness :
    processLine 0 0 1 ⟨3, 3, 0⟩ "frame=9" = ⟨9, 9, 0⟩ := by
  have h := frame_progress_unknown_budget.1 0 1 ⟨3, 3, 0⟩ "frame=9" 9
    (by decide) (by decide) (by decide)
  simpa using h

/-- C2: with a known budget (positive) and decimation factor at least 1, a
stripped `out_time_ms=` line with integer payload `v` is read as
`v / 1,000,000` seconds; the estimated increment is the `int()` truncation
of `(seconds - last_out_time) * (fps / every_n)`, and exactly when it is
positive the bar advances by it and the time cursor moves to `seconds`.
With budget 100, 10 fps, N = 1 and `out_time_ms` growing by 1,000,000 per
line, every line advances the bar by 10; after nine lines the bar holds 90
and the end-of-stream reconciliation tops it up to exactly 100. -/
theorem out_time_progress_known_budget :
    (∀ (est : ℤ) (fps : ℚ) (every_n : ℤ) (st : ProgressState) (line : String) (v : ℤ),
      0 < est → 1 ≤ every_n → pyStrip line = line →
      pyStartsWith "out_time_ms=" line = true →
      pyInt (afterFirstEq line) = some v →
      processLine est fps every_n st line =
        if 0 < truncQ (((v : ℚ) / 1000000 - st.last_out_time) * (fps / (every_n : ℚ))) then
          ⟨st.n + truncQ (((v : ℚ) / 1000000 - st.last_out_time) * (fps / (every_n : ℚ))),
           st.last_frames_counted, (v : ℚ) / 1000000⟩
        else st) ∧
    runLines 100 10 1 ["out_time_ms=1000000", "out_time_ms=2000000",
      "out_time_ms=3000000"] initState = ⟨30, 0, 3⟩ ∧
    runLines 100 10 1 ["out_time_ms=1000000", "out_time_ms=2000000",
      "out_time_ms=3000000", "out_time_ms=4000000", "out_time_ms=5000000",
      "out_time_ms=6000000", "out_time_ms=7000000", "out_time_ms=8000000",
      "out_time_ms=9000000"] initState = ⟨90, 0, 9⟩ ∧
    ffmpegProgress 100 10 1 ["out_time_ms=1000000", "out_time_ms=2000000",
      "out_time_ms=3000000", "out_time_ms=4000000", "out_time_ms=5000000",
      "out_time_ms=6000000", "out_time_ms=7000000", "out_time_ms=8000000",
      "out_time_ms=9000000"] = ⟨100, 0, 9⟩ := by
  refine ⟨?_, ?_, ?_, ?_⟩
  · intro est fps every_n st line v hest hn htrim hstart hv
    have hcast : ((max 1 every_n : ℤ) : ℚ) = (every_n : ℚ) := by
      rw [max_eq_right hn]
    rw [out_time_line_step est fps every_n st line v hest htrim hstart hv, hcast]
  · norm_num +decide [runLines, List.foldl, processLine, pyStrip, stripChars,
      pyStartsWith, startsWithChars, pyInt, afterFirstEq, dropThroughEq,
      digitsToNat, digitVal, initState, truncQ]
  · norm_num +decide [runLines, List.foldl, processLine, pyStrip, stripChars,
      pyStartsWith, startsWithChars, pyInt, afterFirstEq, dropThroughEq,
      digitsToNat, digitVal, initState, truncQ]
  · norm_num +decide [ffmpegProgress, finalizeProgress, runLines, List.foldl,
      processLine, pyStrip, stripChars, pyStartsWith, startsWithChars, pyInt,
      afterFirstEq, dropThroughEq, digitsToNat, digitVal, initState, truncQ]

/-- Witness for `out_time_progress_known_budget`: at budget 100, 10 fps,
N = 1, with time cursor at 1 s and bar at 10, the line
`out_time_ms=2000000` advances the bar by 10 and moves the cursor to 2 s. -/
theorem out_time_progress_known_budget_witness :
    processLine 100 10 1 ⟨10, 0, 1⟩ "out_time_ms=2000000" = ⟨20, 0, 2⟩ := by
  have h := out_time_progress_known_budget.1 100 10 1 ⟨10, 0, 1⟩
    "out_time_ms=2000000" 2000000 (by decide) (by decide) (by decide)
    (by decide) (by decide)
  rw [h]
  norm_num [truncQ]

/-- C9: on one to three colon-separated fields that all parse as floats,
`to_sec` returns hours*3600 + minutes*60 + seconds with missing leading
fields read as 0, and the empty string gives 0.0; concretely
`to_sec "90" = 90.0`, `to_sec "01:30" = 90.0`,
`to_sec "01:00:00" = 3600.0`, `to_sec "" = 0.0`. -/
theorem to_sec_well_formed :
    (∀ (s : String) (qs : List ℚ) (a : ℚ), s ≠ "" →
      parseFields (splitOnChar ':' s.data) = some qs → qs = [a] →
      to_sec s = some a) ∧
    (∀ (s : String) (qs : List ℚ) (a b : ℚ), s ≠ "" →
      parseFields (splitOnChar ':' s.data) = some qs → qs = [a, b] →
      to_sec s = some (a * 60 + b)) ∧
    (∀ (s : String) (qs : List ℚ) (a b c : ℚ), s ≠ "" →
      parseFields (splitOnChar ':' s.data) = some qs → qs = [a, b, c] →
      to_sec s = some (a * 3600 + b * 60 + c)) ∧
    to_sec "" = some 0 ∧
    to_sec "90" = some 90 ∧
    to_sec "01:30" = some 90 ∧
    to_sec "01:00:00" = some 3600 := by
  refine ⟨?_, ?_, ?_, by decide, ?_, ?_, ?_⟩
  · intro s qs a hs hp hq
    subst hq
    simp [to_sec, hs, hp, List.replicate]
  · intro s qs a b hs hp hq
    subst hq
    simp [to_sec, hs, hp, List.replicate]
  · intro s qs a b c hs hp hq
    subst hq
    simp [to_sec, hs, hp, List.replicate]
  · norm_num +decide [to_sec, parseFields, pyFloat, pyFloatBody, splitOnChar,
      stripChars, digitsToNat, digitVal, List.replicate]
  · norm_num +decide [to_sec, parseFields, pyFloat, pyFloatBody, splitOnChar,
      stripChars, digitsToNat, digitVal, List.replicate]
  · norm_num +decide [to_sec, parseFields, pyFloat, pyFloatBody, splitOnChar,
      stripChars, digitsToNat, digitVal, List.replicate]

/-- Witness for `to_sec_well_formed`: `to_sec "2:05"` is 2 minutes 5
seconds. -/
theorem to_sec_well_formed_witness : to_sec "2:05" = some (2 * 60 + 5) := by
  have h := to_sec_well_formed.2.1 "2:05" [2, 5] 2 5 (by decide)
    (by norm_num +decide [parseFields, pyFloat, pyFloatBody, splitOnChar,
      stripChars, digitsToNat, digitVal]) rfl
  exact h

/-- C6 counterexample: the claim says `to_sec` rejects a string of more
than three colon-separated fields, but the code accepts `"1:2:3:4"` and
returns 1*3600 + 2*60 + 3 = 3723.0, silently ignoring the trailing
fields. -/
theorem to_sec_four_fields_counterexample :
    to_sec "1:2:3:4" = some 3723 ∧ to_sec "1:2:3:4" ≠ none := by
  have h : to_sec "1:2:3:4" = some 3723 := by
    norm_num +decide [to_sec, parseFields, pyFloat, pyFloatBody, splitOnChar,
      stripChars, digitsToNat, digitVal, List.replicate]
  exact ⟨h, by simp [h]⟩

/-- C6 amended: a field `float()` rejects makes `to_sec` raise
(`ValueError`, the spec's `InvalidTimeCode`), but a string of more than
three numeric fields is accepted: the first three fields are read as
hours, minutes and seconds and the rest are ignored, so
`to_sec "1:2:3:4" = 3723.0` rather than failing. -/
theorem to_sec_malformed :
    (∀ s : String, s ≠ "" → parseFields (splitOnChar ':' s.data) = none →
      to_sec s = none) ∧
    (∀ (s : String) (qs : List ℚ), s ≠ "" →
      parseFields (splitOnChar ':' s.data) = some qs → 3 ≤ qs.length →
      to_sec s = some (qs.getD 0 0 * 3600 + qs.getD 1 0 * 60 + qs.getD 2 0)) ∧
    to_sec "1:x" = none ∧
    to_sec "1:2:3:4" = some 3723 := by
  refine ⟨?_, ?_, by decide, ?_⟩
  · intro s hs hp
    simp [to_sec, hs, hp]
  · intro s qs hs hp hlen
    have h0 : 3 - qs.length = 0 := by omega
    simp [to_sec, hs, hp, h0]
  · norm_num +decide [to_sec, parseFields, pyFloat, pyFloatBody, splitOnChar,
      stripChars, digitsToNat, digitVal, List.replicate]

/-- Witness for `to_sec_malformed`: four numeric fields are accepted and
the fourth is dropped. -/
theorem to_sec_malformed_witness : to_sec "9:8:7:6" = some (9 * 3600 + 8 * 60 + 7) := by
  have h := to_sec_malformed.2.1 "9:8:7:6" [9, 8, 7, 6] (by decide)
    (by norm_num +decide [parseFields, pyFloat, pyFloatBody, splitOnChar,
      stripChars, digitsToNat, digitVal]) (by decide)
  simpa using h

/-- C7 counterexample: the claim says an unparsable duration field yields
duration 0.0, but `float("abc")` is outside the `try` block, so the probe
raises instead of returning a MediaInfo. -/
theorem probe_unparsable_duration_counterexample :
    probe_video_info ⟨some "abc", some "30/1"⟩ = none := by decide

/-- C7 amended: a frame-rate rational with a zero denominator yields frame
rate 0.0 with no division fault, and an absent duration field yields
duration 0.0; but a duration string `float()` cannot parse makes the probe
raise (`ProbeFailed`) rather than yield 0.0. -/
theorem probe_parsing_degradation :
    (∀ (fs : String) (num den : List Char),
      splitOnChar '/' fs.data = [num, den] → pyFloat ⟨den⟩ = some 0 →
      parseFps fs = 0) ∧
    (∀ r : Option String,
      probe_video_info ⟨none, r⟩ = some (0, parseFps (r.getD "0/0"))) ∧
    (∀ (s : String) (r : Option String), pyFloat s = none →
      probe_video_info ⟨some s, r⟩ = none) ∧
    parseFps "0/0" = 0 ∧
    parseFps "30/0" = 0 := by
  refine ⟨?_, ?_, ?_, by decide, by decide⟩
  · intro fs num den hsplit hden
    cases hnum : pyFloat ⟨num⟩ with
    | none => simp [parseFps, hsplit, hnum]
    | some n => simp [parseFps, hsplit, hnum, hden]
  · intro r
    simp [probe_video_info]
  · intro s r hs
    simp [probe_video_info, hs]

/-- Witness for `probe_parsing_degradation`: `r_frame_rate = "25/0"`
parses to frame rate 0. -/
theorem probe_parsing_degradation_witness : parseFps "25/0" = 0 :=
  probe_parsing_degradation.1 "25/0" ['2', '5'] ['0'] (by decide) (by decide)

/-- C5 counterexample: when the probe fails outright (`none` input: the
external tool could not run or emitted malformed JSON), the estimation
stage of `ffmpeg_extract_frames` propagates the exception and produces no
budget at all, rather than the budget 0 the claim promises. -/
theorem probe_failure_counterexample :
    extractEstimate none 1 none none = none ∧
    extractEstimate none 1 none none ≠ some 0 := by
  have h : extractEstimate none 1 none none = none := rfl
  exact ⟨h, by simp [h]⟩

/-- C5 amended: a probe failure (tool cannot run or malformed structured
output) propagates out of the estimation stage, aborting the extraction
run before the external process is launched; only probe outputs whose
fields are merely absent or individually degraded (missing duration,
zero-denominator or unparsable frame rate) fall back to an unknown budget
of 0 while the run proceeds. -/
theorem probe_failure_propagates :
    (∀ (every_n : ℤ) (start_ts end_ts : Option String),
      extractEstimate none every_n start_ts end_ts = none) ∧
    extractEstimate (some ⟨none, none⟩) 1 none none = some 0 ∧
    extractEstimate (some ⟨none, some "0/0"⟩) 3 none none = some 0 := by
  refine ⟨fun _ _ _ => rfl, ?_, ?_⟩
  · norm_num +decide [extractEstimate, runProbe, probe_video_info, parseFps,
      splitOnChar, stripChars, pyFloat, pyFloatBody, optTruthy, frameBudget]
  · norm_num +decide [extractEstimate, runProbe, probe_video_info, parseFps,
      splitOnChar, stripChars, pyFloat, pyFloatBody, optTruthy, frameBudget]

end YF
